/-
Verification of the GnuTLS integration module (tls-gnu.c) of the Exim mail
transport agent, against its natural-language specification.

The C module is shallowly embedded: each C function that a claim mentions is
translated into an executable Lean definition over explicit state records.
External collaborators (the GnuTLS engine, the configuration expander, the
filesystem, the entropy source, the plaintext SMTP byte source) are modelled
as oracle fields or oracle functions supplied to the embedded functions, with
their documented result conventions (e.g. gnutls_certificate_verify_peers2
reporting GNUTLS_E_NO_CERTIFICATE_FOUND when the peer sent no certificate).

Machine integers are modelled as Nat/Int; size_t values are Nat, C int values
are Int, and the one place the code truncates (the return value of tls_write)
is modelled with the explicit INT_MAX cap the source applies.
-/
import Mathlib

/- ------------------------------------------------------------------ -/
/- Constants from the C sources (exim macros.h and GnuTLS headers).    -/
/- ------------------------------------------------------------------ -/

/-- Exim return code OK (macros.h). -/
def EXIM_OK : Int := 0

/-- Exim return code DEFER (macros.h). -/
def EXIM_DEFER : Int := 1

/-- Exim return code FAIL (macros.h). -/
def EXIM_FAIL : Int := 2

/-- GnuTLS success code. -/
def GNUTLS_E_SUCCESS : Int := 0

/-- GnuTLS would-block code. -/
def GNUTLS_E_AGAIN : Int := -28

/-- GnuTLS interrupted-call code. -/
def GNUTLS_E_INTERRUPTED : Int := -52

/-- GnuTLS code for a verify request when the peer sent no certificate. -/
def GNUTLS_E_NO_CERTIFICATE_FOUND : Int := -49

/-- GnuTLS short-buffer code, used by the sizing idiom for export calls. -/
def GNUTLS_E_SHORT_MEMORY_BUFFER : Int := -37

/-- Verification status bit: chain invalid. -/
def GNUTLS_CERT_INVALID : Nat := 2

/-- Verification status bit: certificate revoked. -/
def GNUTLS_CERT_REVOKED : Nat := 32

/-- Largest C int value on the target platforms (32-bit int). -/
def INT_MAX : Nat := 2 ^ 31 - 1

/-- The result of tls_error(): FAIL when a connected host is present (client),
DEFER when setting up a server.  (tls-gnu.c, tls_error.) -/
def tls_error_rc (isClient : Bool) : Int :=
if isClient then EXIM_FAIL else EXIM_DEFER

/- ------------------------------------------------------------------ -/
/- Randomness helper: vaguely_random_number (tls-gnu.c).               -/
/- ------------------------------------------------------------------ -/

/-- Number of iterations of the C loop `for (r = max, i = 0; r; ++i) r >>= 1`,
i.e. the bit-width of its unsigned argument. -/
def bitCount : Nat → Nat
| 0 => 0
| n + 1 => bitCount ((n + 1) / 2) + 1

/-- Shallow embedding of vaguely_random_number (HAVE_GNUTLS_RND variant).
`entropy n` is the outcome of gnutls_rnd asked for `n` bytes: `none` models a
negative return, `some bytes` a successful fill of smallbuf.  `fallback` is
the external vaguely_random_number_fallback collaborator.  Returns the value
produced together with the number of random bytes requested from gnutls_rnd
(0 when gnutls_rnd is never called). -/
def vaguely_random_number (max : Int) (entropy : Nat → Option (List Nat))
    (fallback : Int → Int) : Int × Nat :=
if max ≤ 1 then (0, 0)
else
  let needed_len : Nat :=
    if (bitCount max.toNat + 7) / 8 < 4 then (bitCount max.toNat + 7) / 8 else 4
  match entropy needed_len with
  | none => (fallback max, needed_len)
  | some bytes =>
    let r := (bytes.take needed_len).foldl
      (fun acc b => (acc * 256 + b) % 2 ^ 32) 0
    (Int.ofNat (r % max.toNat), needed_len)

/- ------------------------------------------------------------------ -/
/- Record output: tls_write (tls-gnu.c).                               -/
/- ------------------------------------------------------------------ -/

/-- Outcome of the tls_write send loop: total bytes handed to the engine,
and whether the loop finished (success) or bailed out on a non-positive
gnutls_record_send result. -/
inductive WriteLoopResult where
| success (sent : Nat)
| failed (sent : Nat)
deriving DecidableEq, Repr

/-- The `while (left > 0)` loop of tls_write.  `oracle` lists the successive
return values of gnutls_record_send; `none` means the oracle was exhausted
while bytes remained (cannot happen against the real engine, which blocks). -/
def tls_write_loop : List Int → Nat → Option WriteLoopResult
| [], left => if left = 0 then some (.success 0) else none
| r :: rest, left =>
  if left = 0 then some (.success 0)
  else if r ≤ 0 then some (.failed 0)
  else
    (tls_write_loop rest (left - r.toNat)).map fun res =>
      match res with
      | .success s => .success (r.toNat + s)
      | .failed s => .failed (r.toNat + s)

/-- Shallow embedding of tls_write: run the send loop over the whole length;
a negative send logs and returns -1, a zero send is treated as a closed
channel and returns -1; otherwise the C code caps len at INT_MAX after the
loop and returns `(int) len`. -/
def tls_write (len : Nat) (oracle : List Int) : Option Int :=
(tls_write_loop oracle len).map fun res =>
  match res with
  | .success _ => Int.ofNat (if len > INT_MAX then INT_MAX else len)
  | .failed _ => -1

/-- Checks that every successful oracle response is no larger than the number
of bytes still outstanding at the point it is returned — the guarantee the
real gnutls_record_send provides (it never reports more than requested). -/
def boundedResponses : Nat → List Int → Bool
| _, [] => true
| left, r :: rest =>
  if r ≤ 0 then true
  else decide (r.toNat ≤ left) && boundedResponses (left - r.toNat) rest

/- ------------------------------------------------------------------ -/
/- Handshake loop and server failure handling (tls_server_start).      -/
/- ------------------------------------------------------------------ -/

/-- The retry condition of the handshake do-while loop in tls_server_start and
tls_client_start: `(rc == GNUTLS_E_AGAIN) || (rc == GNUTLS_E_INTERRUPTED &&
!sigalrm_seen)`. -/
def hs_retry (rc : Int) (sigalrm_seen : Bool) : Bool :=
rc = GNUTLS_E_AGAIN ∨ (rc = GNUTLS_E_INTERRUPTED ∧ sigalrm_seen = false)

/-- The handshake do-while loop.  The trace lists, for each successive
gnutls_handshake invocation, its return code paired with the value of the
process-wide sigalrm_seen flag when the loop condition is evaluated.  Returns
the pair the loop exits with, or `none` if the trace is exhausted while the
loop would still retry. -/
def gnutls_handshake_loop : List (Int × Bool) → Option (Int × Bool)
| [] => none
| (rc, seen) :: rest =>
  if hs_retry rc seen then gnutls_handshake_loop rest else some (rc, seen)

/-- Outcome of the server handshake block: Exim return code, whether each of
the two transport endpoints (smtp_in / smtp_out) is still open afterwards,
and whether the logged failure message says "timed out". -/
structure ServerHsOutcome where
  rc : Int
  fdInOpen : Bool
  fdOutOpen : Bool
  reportedTimeout : Bool
deriving DecidableEq, Repr

/-- Shallow embedding of the handshake section of tls_server_start (from the
sigalrm_seen reset through the failure handling).  Both endpoints start open;
on a non-success loop result the server logs (with "timed out" if and only if
sigalrm_seen was set), force-closes both endpoints unless the failure was a
timeout, and returns FAIL. -/
def tls_server_handshake (trace : List (Int × Bool)) : Option ServerHsOutcome :=
(gnutls_handshake_loop trace).map fun p =>
  if p.1 ≠ GNUTLS_E_SUCCESS then
    if p.2 then
      { rc := EXIM_FAIL, fdInOpen := true, fdOutOpen := true,
        reportedTimeout := true }
    else
      { rc := EXIM_FAIL, fdInOpen := false, fdOutOpen := false,
        reportedTimeout := false }
  else
    { rc := EXIM_OK, fdInOpen := true, fdOutOpen := true,
      reportedTimeout := false }

/- ------------------------------------------------------------------ -/
/- DH parameter cache: init_server_dh (tls-gnu.c).                     -/
/- ------------------------------------------------------------------ -/

/-- Result of the Uopen call on the DH cache file, together with the fate of
the subsequent read steps when the open succeeded: fstat outcome, the
S_ISREG test, fdopen, malloc, fread, and the return code of
gnutls_dh_params_import_pkcs3 on the bytes read. -/
inductive DhOpenResult where
| opened (fstatOk : Bool) (isRegular : Bool) (fdopenOk : Bool)
    (mallocOk : Bool) (freadOk : Bool) (importRC : Int)
| enoent
| otherOpenError
deriving DecidableEq, Repr

/-- Environment (filesystem and engine oracle) for one init_server_dh run. -/
structure DhWorld where
  initRC : Int
  secParamBits : Nat
  filenameFormatOk : Bool
  openResult : DhOpenResult
  filenameRoomOk : Bool
  mkstempOk : Bool
  generateRC : Int
  exportSizingRC : Int
  exportMallocOk : Bool
  exportRC : Int
  writeParamsOk : Bool
  writeNewlineOk : Bool
  closeOk : Bool
  renameOk : Bool
deriving DecidableEq, Repr

/-- The regeneration block of init_server_dh (the `if (rc < 0)` body):
generate parameters, export them as PKCS#3 PEM, write them plus a trailing
newline to a mkstemp file and rename it over the cache path.  Every failed
step returns tls_error (DEFER, since host is NULL here).  The Bool records
that fresh parameters were generated and the cache rewritten. -/
def init_server_dh_regen (w : DhWorld) : Int × Bool :=
if w.filenameRoomOk = false then (EXIM_DEFER, false)
else if w.mkstempOk = false then (EXIM_DEFER, false)
else if w.generateRC ≠ GNUTLS_E_SUCCESS then (EXIM_DEFER, false)
else if w.exportSizingRC ≠ GNUTLS_E_SHORT_MEMORY_BUFFER ∧
        w.exportSizingRC ≠ GNUTLS_E_SUCCESS then (EXIM_DEFER, false)
else if w.exportMallocOk = false then (EXIM_DEFER, false)
else if w.exportRC ≠ GNUTLS_E_SUCCESS then (EXIM_DEFER, false)
else if w.writeParamsOk = false then (EXIM_DEFER, false)
else if w.writeNewlineOk = false then (EXIM_DEFER, false)
else if w.closeOk = false then (EXIM_DEFER, false)
else if w.renameOk = false then (EXIM_DEFER, false)
else (EXIM_OK, true)

/-- Shallow embedding of init_server_dh.  Returns the Exim return code and
whether the parameters were regenerated (as opposed to read from the cache
file or not obtained at all).  Mirrors the source control flow: every error
path goes through tls_error with host = NULL, hence DEFER; only an ENOENT
from the open sets rc = -1 and reaches the regeneration block. -/
def init_server_dh (w : DhWorld) : Int × Bool :=
if w.initRC ≠ GNUTLS_E_SUCCESS then (EXIM_DEFER, false)
else if w.secParamBits = 0 then (EXIM_DEFER, false)
else if w.filenameFormatOk = false then (EXIM_DEFER, false)
else
  match w.openResult with
  | .opened fstatOk isRegular fdopenOk mallocOk freadOk importRC =>
    if fstatOk = false then (EXIM_DEFER, false)
    else if isRegular = false then (EXIM_DEFER, false)
    else if fdopenOk = false then (EXIM_DEFER, false)
    else if mallocOk = false then (EXIM_DEFER, false)
    else if freadOk = false then (EXIM_DEFER, false)
    else if importRC ≠ GNUTLS_E_SUCCESS then (EXIM_DEFER, false)
    else (EXIM_OK, false)
  | .enoent => init_server_dh_regen w
  | .otherOpenError => (EXIM_DEFER, false)

/-- A DhWorld in which the cache file exists as a readable regular file but
its contents fail the PKCS#3 PEM import, and in which every regeneration
step would succeed if it were reached. -/
def dhWorldCorruptCache : DhWorld :=
  { initRC := 0, secParamBits := 2048, filenameFormatOk := true,
    openResult := .opened true true true true true (-1),
    filenameRoomOk := true, mkstempOk := true, generateRC := 0,
    exportSizingRC := GNUTLS_E_SHORT_MEMORY_BUFFER, exportMallocOk := true,
    exportRC := 0, writeParamsOk := true, writeNewlineOk := true,
    closeOk := true, renameOk := true }

/- ------------------------------------------------------------------ -/
/- Record input: tls_getc, tls_read and the receive pointers.          -/
/- ------------------------------------------------------------------ -/

/-- One gnutls_record_recv outcome: a block of bytes (positive return of its
length), a zero-length return, or a negative error code. -/
inductive RecvResult where
| bytes (bs : List Nat)
| closed
| err (code : Int)
deriving DecidableEq, Repr

/-- Combined state for the record-input layer: the xfer buffer cursors of
exim_gnutls_state_st, the per-session error flag, the engine session and the
process-wide receive function pointers and published tls_* session facts,
plus oracles for the TLS transport (recvQueue) and the underlying plaintext
SMTP source (plainStream).  ioErrorsLogged counts record_io_error calls and
dkimFeed collects bytes handed to dkim_exim_verify_feed. -/
structure GetcState where
  xfer_buffer : List Nat
  xfer_buffer_lwm : Nat
  xfer_buffer_hwm : Nat
  xfer_error : Bool
  recvQueue : List RecvResult
  plainStream : List Nat
  receiveIsTls : Bool
  sessionLive : Bool
  tls_active : Int
  tls_bits : Nat
  tls_certificate_verified : Bool
  tls_channelbinding_b64 : Option String
  tls_cipher : Option String
  tls_peerdn : Option String
  ioErrorsLogged : Nat
  dkimFeed : List Nat
deriving DecidableEq, Repr

/-- The plaintext smtp_getc collaborator: next raw byte, or EOF (-1) when the
underlying stream is exhausted. -/
def smtp_getc (s : GetcState) : Int × GetcState :=
match s.plainStream with
| [] => (-1, s)
| b :: rest => (Int.ofNat b, { s with plainStream := rest })

/-- Return the byte at the low-water mark and advance it (the C statement
`return state->xfer_buffer[state->xfer_buffer_lwm++]`).  `none` models an
out-of-bounds access, which the theorems show is never reached. -/
def xfer_buffer_next (s : GetcState) : Option (Int × GetcState) :=
match s.xfer_buffer.get? s.xfer_buffer_lwm with
| none => none
| some b =>
  some (Int.ofNat b, { s with xfer_buffer_lwm := s.xfer_buffer_lwm + 1 })

/-- Shallow embedding of tls_getc.  On buffer exhaustion it consumes the next
recvQueue entry: a zero-length read reverts the receive function pointers to
the plaintext primitives, deinitialises the engine session, clears the
published session facts and transparently returns smtp_getc(); a negative
read logs through record_io_error, sets xfer_error and returns EOF; a
positive read feeds DKIM and refills the buffer.  `none` means the transport
oracle was exhausted (the real call would block). -/
def tls_getc (s : GetcState) : Option (Int × GetcState) :=
if s.xfer_buffer_lwm ≥ s.xfer_buffer_hwm then
  match s.recvQueue with
  | [] => none
  | r :: rest =>
    let s1 := { s with recvQueue := rest }
    let inbytes : Int :=
      match r with
      | .bytes bs => Int.ofNat bs.length
      | .closed => 0
      | .err code => code
    if inbytes = 0 then
      some (smtp_getc
        { s1 with receiveIsTls := false, sessionLive := false,
                  tls_active := -1, tls_bits := 0,
                  tls_certificate_verified := false,
                  tls_channelbinding_b64 := none, tls_cipher := none,
                  tls_peerdn := none })
    else if inbytes < 0 then
      some (-1, { s1 with ioErrorsLogged := s1.ioErrorsLogged + 1,
                          xfer_error := true })
    else
      let data := match r with | .bytes bs => bs | _ => []
      xfer_buffer_next
        { s1 with dkimFeed := s1.dkimFeed ++ data, xfer_buffer := data,
                  xfer_buffer_hwm := data.length, xfer_buffer_lwm := 0 }
else
  xfer_buffer_next s

/-- The process receive pointer dispatch: receive_getc is tls_getc while the
session is in TLS mode and smtp_getc after the fallback. -/
def receive_getc (s : GetcState) : Option (Int × GetcState) :=
if s.receiveIsTls then tls_getc s else some (smtp_getc s)

/-- Read n bytes through the receive pointer, collecting the results. -/
def getcN : Nat → GetcState → Option (List Int × GetcState)
| 0, s => some ([], s)
| n + 1, s =>
  (receive_getc s).bind fun p =>
    (getcN n p.2).map fun q => (p.1 :: q.1, q.2)

/-- Shallow embedding of tls_read: cap len at INT_MAX, warn (without acting)
if the byte-wise buffer holds unread data, then issue a single
gnutls_record_recv.  A positive return yields the byte count; a zero return
logs nothing and yields -1; a negative return logs through record_io_error
and yields -1.  No receive pointer, session or error-flag change ever
happens here. -/
def tls_read (s : GetcState) (len : Nat) : Option (Int × GetcState) :=
let lenCapped := if len > INT_MAX then INT_MAX else len
match s.recvQueue with
| [] => none
| r :: rest =>
  let s1 := { s with recvQueue := rest }
  let inbytes : Int :=
    match r with
    | .bytes bs => Int.ofNat (min bs.length lenCapped)
    | .closed => 0
    | .err code => code
  if inbytes > 0 then some (inbytes, s1)
  else if inbytes = 0 then some (-1, s1)
  else some (-1, { s1 with ioErrorsLogged := s1.ioErrorsLogged + 1 })

/- ------------------------------------------------------------------ -/
/- Peer identity extraction and verification (peer_status,             -/
/- verify_certificate).                                                -/
/- ------------------------------------------------------------------ -/

/-- Values for verify_requirement (enum peer_verify_requirement). -/
inductive PeerVerifyRequirement where
| VERIFY_NONE
| VERIFY_OPTIONAL
| VERIFY_REQUIRED
deriving DecidableEq, Repr

/-- Replace each space of the formatted ciphersuite label by a hyphen (the
`for (p = cipherbuf; *p; ++p) if (isspace(*p)) *p = '-'` loop). -/
def normalizeCipher (label : String) : String :=
label.map fun c => if c = ' ' then '-' else c

/-- The slice of exim_gnutls_state_st that peer_status and
verify_certificate read and write, together with oracle fields describing
what the GnuTLS engine would answer for this session: the raw formatted
ciphersuite label, the peer certificate list, the certificate-type test, the
return codes of the x509 crt init/import/get_dn calls, the DN text, and the
gnutls_certificate_verify_peers2 result (return code, status bits when it
succeeds, and the value an unwritten output variable would hold when it
fails).  engineQueries counts the passes peer_status makes over the engine
data (negotiated parameters and certificate parse); alertSent records a
gnutls_alert_send of the fatal bad-certificate alert. -/
structure TlsState where
  verify_requirement : PeerVerifyRequirement
  isClient : Bool
  have_set_peerdn : Bool
  peerdn : Option String
  ciphersuite : Option String
  peer_cert_verified : Bool
  cipherLabel : String
  peerCertList : List Nat
  certTypeX509 : Bool
  crtInitRC : Int
  crtImportRC : Int
  dnSizingRC : Int
  dnRC : Int
  leafDN : String
  verifyPeersRC : Int
  verifyPeersBits : Nat
  uninitVerify : Nat
  engineQueries : Nat
  alertSent : Bool
deriving DecidableEq, Repr

/-- The exim_gnutls_peer_err macro of peer_status: on a failed engine call,
REQUIRED policy turns it into tls_error, anything weaker returns OK with the
DN left unset. -/
def peer_status_err (s : TlsState) : Int × TlsState :=
if s.verify_requirement = .VERIFY_REQUIRED then (tls_error_rc s.isClient, s)
else (EXIM_OK, s)

/-- Shallow embedding of peer_status.  Guarded by have_set_peerdn: a second
call returns OK immediately.  Otherwise it reads the negotiated parameters,
stores the normalized ciphersuite label, reads the peer certificate list
(absence or a non-X.509 type is an error only under REQUIRED policy), parses
the leaf certificate and caches its distinguished name. -/
def peer_status (s : TlsState) : Int × TlsState :=
if s.have_set_peerdn then (EXIM_OK, s)
else
  let s1 := { s with have_set_peerdn := true, peerdn := none,
                     engineQueries := s.engineQueries + 1,
                     ciphersuite := some (normalizeCipher s.cipherLabel) }
  if s1.peerCertList.isEmpty then
    (if s1.verify_requirement = .VERIFY_REQUIRED then
       (tls_error_rc s1.isClient, s1)
     else (EXIM_OK, s1))
  else if s1.certTypeX509 = false then
    (if s1.verify_requirement = .VERIFY_REQUIRED then
       (tls_error_rc s1.isClient, s1)
     else (EXIM_OK, s1))
  else if s1.crtInitRC ≠ GNUTLS_E_SUCCESS then peer_status_err s1
  else if s1.crtImportRC ≠ GNUTLS_E_SUCCESS then peer_status_err s1
  else if s1.dnSizingRC ≠ GNUTLS_E_SHORT_MEMORY_BUFFER then
    (if s1.dnSizingRC ≠ GNUTLS_E_SUCCESS then peer_status_err s1
     else (EXIM_FAIL, s1))
  else if s1.dnRC ≠ GNUTLS_E_SUCCESS then peer_status_err s1
  else (EXIM_OK, { s1 with peerdn := some s1.leafDN })

/-- The gnutls_certificate_verify_peers2 collaborator, per the GnuTLS
documentation: when the peer supplied no certificate it returns
GNUTLS_E_NO_CERTIFICATE_FOUND and does not write the output status word;
when it fails otherwise the output word is likewise unwritten; on success it
writes the verification status bits.  The pair is (return code, the value
the caller's `verify` variable holds afterwards). -/
def gnutls_certificate_verify_peers2 (s : TlsState) : Int × Nat :=
if s.peerCertList.isEmpty then (GNUTLS_E_NO_CERTIFICATE_FOUND, s.uninitVerify)
else if s.verifyPeersRC ≠ GNUTLS_E_SUCCESS then (s.verifyPeersRC, s.uninitVerify)
else (GNUTLS_E_SUCCESS, s.verifyPeersBits)

/-- Shallow embedding of verify_certificate.  Returns (accept, advisory
reason, final state).  A failed peer_status pre-loads verify with
GNUTLS_CERT_INVALID and the reason "not supplied"; otherwise the engine's
chain validation runs.  A negative return or an INVALID/REVOKED bit marks
the peer unverified; under REQUIRED policy a fatal bad-certificate alert is
sent and the session is rejected, under weaker policy the failure is logged
and the session accepted. -/
def verify_certificate (s : TlsState) : Bool × Option String × TlsState :=
let p := peer_status s
let s1 := p.2
let rcAndVerifyAndReason : Int × Nat × Option String :=
  if p.1 ≠ EXIM_OK then (p.1, GNUTLS_CERT_INVALID, some "not supplied")
  else
    let q := gnutls_certificate_verify_peers2 s1
    (q.1, q.2, none)
let rc := rcAndVerifyAndReason.1
let verify := rcAndVerifyAndReason.2.1
let reason0 := rcAndVerifyAndReason.2.2
if rc < 0 ∨ Nat.land verify (GNUTLS_CERT_INVALID + GNUTLS_CERT_REVOKED) ≠ 0 then
  let s2 := { s1 with peer_cert_verified := false }
  let reason :=
    match reason0 with
    | none => some (if Nat.land verify GNUTLS_CERT_REVOKED ≠ 0 then "revoked"
                    else "invalid")
    | some e => some e
  if s2.verify_requirement = .VERIFY_REQUIRED then
    (false, reason, { s2 with alertSent := true })
  else (true, reason, s2)
else
  (true, reason0, { s1 with peer_cert_verified := true })

/-- A concrete fresh server-side session whose peer supplied no
certificate, under REQUIRED verification policy. -/
def sessionNoCertRequired : TlsState :=
  { verify_requirement := .VERIFY_REQUIRED, isClient := false,
    have_set_peerdn := false, peerdn := none, ciphersuite := none,
    peer_cert_verified := false, cipherLabel := "TLS1.0:RSA_AES_256_CBC_SHA1:256",
    peerCertList := [], certTypeX509 := true, crtInitRC := 0,
    crtImportRC := 0, dnSizingRC := GNUTLS_E_SHORT_MEMORY_BUFFER, dnRC := 0,
    leafDN := "CN=peer", verifyPeersRC := 0, verifyPeersBits := 0,
    uninitVerify := 0, engineQueries := 0, alertSent := false }

/-- The same no-certificate session under NONE verification policy. -/
def sessionNoCertNone : TlsState :=
  { sessionNoCertRequired with verify_requirement := .VERIFY_NONE }

/-- A concrete session whose peer supplied a parseable X.509 certificate
which the engine reports as both invalid and revoked. -/
def sessionRevoked : TlsState :=
  { sessionNoCertRequired with
    verify_requirement := .VERIFY_OPTIONAL,
    peerCertList := [7],
    verifyPeersBits := GNUTLS_CERT_INVALID + GNUTLS_CERT_REVOKED }

/- ------------------------------------------------------------------ -/
/- Credential resolver: tls_expand_session_files (tls-gnu.c).          -/
/- ------------------------------------------------------------------ -/

/-- The Ustrstr substring test: does the haystack contain the needle. -/
def strContains (hay needle : String) : Bool :=
(List.range (hay.data.length + 1)).any fun i =>
  needle.data.isPrefixOf (hay.data.drop i)

/-- The configuration slice of exim_gnutls_state_st that the resolver reads
and writes.  Raw option strings are Option String (NULL vs a C string); the
exp_* fields hold their expansions.  verify_requirement is carried along to
show the resolver never consults it. -/
structure ExpandState where
  isClient : Bool
  received_sni : Option String
  trigger_sni_changes : Bool
  verify_requirement : PeerVerifyRequirement
  tls_certificate : Option String
  tls_privatekey : Option String
  tls_verify_certificates : Option String
  tls_crl : Option String
  exp_tls_certificate : Option String
  exp_tls_privatekey : Option String
  exp_tls_verify_certificates : Option String
  exp_tls_crl : Option String
deriving DecidableEq, Repr

/-- Oracles for one resolver run: the expansion collaborator (`none` models
a failed expansion), the result of gnutls_certificate_allocate_credentials,
of gnutls_certificate_set_x509_key_file, the Ustat outcome for a path
(`none` is a stat error, otherwise the S_ISDIR bit and the size), and the
certificate counts returned by the trust-file and CRL-file loaders. -/
structure ExpandEnv where
  expand : String → Option String
  allocRC : Int
  setKeyFileRC : Int
  statGives : String → Option (Bool × Nat)
  trustFileCount : Int
  crlFileCount : Int

/-- The expand_check helper (tls.c collaborator): a NULL input expands to
NULL successfully; otherwise the expansion collaborator runs and its failure
is reported as failure. -/
def expand_check (env : ExpandEnv) (raw : Option String) :
    Option (Option String) :=
match raw with
| none => some none
| some t => (env.expand t).map some

/-- Is this Option String a NULL-or-empty C string. -/
def optEmpty (v : Option String) : Bool :=
match v with
| none => true
| some t => t = ""

/-- The trust-store section of tls_expand_session_files (from the
tls_verify_certificates test to the end of the function). -/
def tls_expand_trust_section (env : ExpandEnv) (s : ExpandState) :
    Int × ExpandState :=
if optEmpty s.tls_verify_certificates then (EXIM_OK, s)
else
  match expand_check env s.tls_verify_certificates with
  | none => (EXIM_DEFER, s)
  | some expVC =>
    let s := { s with exp_tls_verify_certificates := expVC }
    let crlStep : Option ExpandState :=
      if optEmpty s.tls_crl then some s
      else
        match expand_check env s.tls_crl with
        | none => none
        | some expCRL => some { s with exp_tls_crl := expCRL }
    match crlStep with
    | none => (EXIM_DEFER, s)
    | some s =>
      if optEmpty s.exp_tls_verify_certificates then (EXIM_OK, s)
      else
        match s.exp_tls_verify_certificates with
        | none => (EXIM_OK, s)
        | some evc =>
          match env.statGives evc with
          | none => (EXIM_DEFER, s)
          | some st =>
            if st.1 then (EXIM_DEFER, s)
            else if st.2 = 0 then (EXIM_OK, s)
            else if env.trustFileCount < 0 then (tls_error_rc s.isClient, s)
            else if optEmpty s.tls_crl = false ∧ optEmpty s.exp_tls_crl = false
            then
              (if env.crlFileCount < 0 then (tls_error_rc s.isClient, s)
               else (EXIM_OK, s))
            else (EXIM_OK, s)

/-- The SNI bookkeeping prelude of tls_expand_session_files: on a server
before any SNI has arrived, note whether the certificate template mentions
tls_sni, so credentials will be re-expanded from the SNI callback. -/
def tls_expand_sni_prelude (s : ExpandState) : ExpandState :=
if s.isClient = false ∧ s.received_sni = none then
  match s.tls_certificate with
  | some c =>
    if strContains c "tls_sni" then { s with trigger_sni_changes := true }
    else s
  | none => s
else s

/-- The body of tls_expand_session_files after the SNI bookkeeping:
allocate a fresh credential set, expand certificate and private key (the
key defaulting to the certificate), register the cert/key pair, and run the
trust-store section.  Expansion failures give DEFER; engine failures go
through tls_error. -/
def tls_expand_core (env : ExpandEnv) (s : ExpandState) : Int × ExpandState :=
if env.allocRC ≠ GNUTLS_E_SUCCESS then (tls_error_rc s.isClient, s)
else
  match expand_check env s.tls_certificate with
  | none => (EXIM_DEFER, s)
  | some expCert =>
    let s := { s with exp_tls_certificate := expCert }
    if optEmpty s.exp_tls_certificate ∧ s.isClient = false then
      (EXIM_DEFER, s)
    else
      let keyStep : Option ExpandState :=
        match s.tls_privatekey with
        | none => some s
        | some k =>
          match env.expand k with
          | none => none
          | some v => some { s with exp_tls_privatekey := some v }
      match keyStep with
      | none => (EXIM_DEFER, s)
      | some s =>
        let s :=
          if optEmpty s.tls_privatekey then
            { s with
              tls_privatekey := s.tls_certificate,
              exp_tls_privatekey := s.exp_tls_certificate }
          else s
        if optEmpty s.exp_tls_certificate = false ∧
           env.setKeyFileRC ≠ GNUTLS_E_SUCCESS then
          (tls_error_rc s.isClient, s)
        else
          tls_expand_trust_section env s

/-- Shallow embedding of tls_expand_session_files: the SNI re-trigger
bookkeeping followed by the credential/trust resolution body. -/
def tls_expand_session_files (env : ExpandEnv) (s : ExpandState) :
    Int × ExpandState :=
tls_expand_core env (tls_expand_sni_prelude s)

/- ------------------------------------------------------------------ -/
/- Concrete sample inputs used by witnesses and counterexamples.       -/
/- ------------------------------------------------------------------ -/

/-- A DhWorld whose cache file is absent (ENOENT) and in which every
regeneration step succeeds. -/
def dhWorldMissingCache : DhWorld :=
  { dhWorldCorruptCache with openResult := .enoent }

/-- A TLS-mode receive state with an exhausted buffer, a transport about to
deliver two bytes and then an orderly close, and a live plaintext source. -/
def getcFallbackSample : GetcState :=
  { xfer_buffer := [], xfer_buffer_lwm := 0, xfer_buffer_hwm := 0,
    xfer_error := false,
    recvQueue := [.bytes [72, 105], .closed],
    plainStream := [81, 85],
    receiveIsTls := true, sessionLive := true, tls_active := 5,
    tls_bits := 256, tls_certificate_verified := true,
    tls_channelbinding_b64 := some "Y2I=",
    tls_cipher := some "TLS1.0:RSA_AES_256_CBC_SHA1:256",
    tls_peerdn := some "CN=peer",
    ioErrorsLogged := 0, dkimFeed := [] }

/-- The same state about to observe an orderly close on a bulk read. -/
def tlsReadCloseSample : GetcState :=
  { getcFallbackSample with recvQueue := [.closed] }

/-- An environment in which expansion is the identity, the engine calls
succeed, and the expanded trust-store path names a directory. -/
def expandEnvDirSample : ExpandEnv :=
  { expand := fun t => some t,
    allocRC := 0, setKeyFileRC := 0,
    statGives := fun p => if p = "/etc/cadir" then some (true, 4096)
                          else some (false, 100),
    trustFileCount := 3, crlFileCount := 1 }

/-- A server-side configuration whose trust store is the directory the above
environment reports. -/
def expandStateDirSample : ExpandState :=
  { isClient := false, received_sni := none, trigger_sni_changes := false,
    verify_requirement := .VERIFY_NONE,
    tls_certificate := some "/etc/cert.pem", tls_privatekey := none,
    tls_verify_certificates := some "/etc/cadir", tls_crl := none,
    exp_tls_certificate := none, exp_tls_privatekey := none,
    exp_tls_verify_certificates := none, exp_tls_crl := none }

/- ------------------------------------------------------------------ -/
/- Theorems.  General helper lemmas first.                             -/
/- ------------------------------------------------------------------ -/

/-- Every natural number is below 2 to its bit-width. -/
theorem bitCount_lt_two_pow (n : Nat) : n < 2 ^ bitCount n := by
  induction n using Nat.strong_induction_on with
  | _ n ih =>
    cases n with
    | zero => simp [bitCount]
    | succ m =>
      have h := ih ((m + 1) / 2) (by omega)
      have hp : (2 : Nat) ^ (bitCount ((m + 1) / 2) + 1) =
          2 ^ bitCount ((m + 1) / 2) * 2 := pow_succ 2 _
      simp only [bitCount]
      omega

/-- The bit-width is the least exponent bound: anything below 2^k has
bit-width at most k. -/
theorem bitCount_le_of_lt : ∀ n k : Nat, n < 2 ^ k → bitCount n ≤ k := by
  intro n
  induction n using Nat.strong_induction_on with
  | _ n ih =>
    intro k h
    cases n with
    | zero => simp [bitCount]
    | succ m =>
      have hk : k ≠ 0 := by
        intro h0
        subst h0
        have : (2 : Nat) ^ 0 = 1 := pow_zero 2
        omega
      obtain ⟨j, rfl⟩ : ∃ j, k = j + 1 := ⟨k - 1, by omega⟩
      have hp : (2 : Nat) ^ (j + 1) = 2 ^ j * 2 := pow_succ 2 j
      have hdiv : (m + 1) / 2 < 2 ^ j := by omega
      have hih := ih ((m + 1) / 2) (by omega) j hdiv
      simp only [bitCount]
      omega

/-- Claim C9: vaguely_random_number returns 0 for every max <= 1 without
requesting any random bytes; for max > 1 it requests exactly the minimum
number of bytes covering max's bit-width (and never more than the four-byte
accumulator width), and when the entropy source succeeds the result lies in
[0, max). -/
theorem claim_C9 (max : Int) (entropy : Nat → Option (List Nat))
    (fallback : Int → Int) :
    (max ≤ 1 → vaguely_random_number max entropy fallback = (0, 0)) ∧
    (1 < max → max < 2 ^ 31 →
      (vaguely_random_number max entropy fallback).2 ≤ 4 ∧
      max.toNat < 2 ^ (8 * (vaguely_random_number max entropy fallback).2) ∧
      (∀ b2 : Nat, max.toNat < 2 ^ (8 * b2) →
        (vaguely_random_number max entropy fallback).2 ≤ b2) ∧
      (entropy (vaguely_random_number max entropy fallback).2 ≠ none →
        0 ≤ (vaguely_random_number max entropy fallback).1 ∧
        (vaguely_random_number max entropy fallback).1 < max)) := by
  constructor
  · intro hle
    simp [vaguely_random_number, if_pos hle]
  · intro h1 h2
    have hnotle : ¬ max ≤ 1 := by omega
    have h2lit : max < 2147483648 := by
      have : (2 : Int) ^ 31 = 2147483648 := by norm_num
      omega
    have hM2 : 2 ≤ max.toNat := by omega
    have hM31 : max.toNat < 2 ^ 31 := by
      have : (2 : Nat) ^ 31 = 2147483648 := by norm_num
      omega
    have hbc31 : bitCount max.toNat ≤ 31 := bitCount_le_of_lt _ 31 hM31
    have hcap : (if (bitCount max.toNat + 7) / 8 < 4 then
        (bitCount max.toNat + 7) / 8 else 4) = (bitCount max.toNat + 7) / 8 := by
      split
      · rfl
      · omega
    have key : vaguely_random_number max entropy fallback =
        (match entropy ((bitCount max.toNat + 7) / 8) with
         | none => (fallback max, (bitCount max.toNat + 7) / 8)
         | some bytes =>
           (Int.ofNat (((bytes.take ((bitCount max.toNat + 7) / 8)).foldl
              (fun acc b => (acc * 256 + b) % 2 ^ 32) 0) % max.toNat),
            (bitCount max.toNat + 7) / 8)) := by
      simp only [vaguely_random_number, if_neg hnotle, hcap]
    have hsnd : (vaguely_random_number max entropy fallback).2 =
        (bitCount max.toNat + 7) / 8 := by
      rw [key]
      cases entropy ((bitCount max.toNat + 7) / 8) <;> rfl
    refine ⟨?_, ?_, ?_, ?_⟩
    · rw [hsnd]; omega
    · rw [hsnd]
      have hle8 : bitCount max.toNat ≤ 8 * ((bitCount max.toNat + 7) / 8) := by
        omega
      calc max.toNat < 2 ^ bitCount max.toNat := bitCount_lt_two_pow _
        _ ≤ 2 ^ (8 * ((bitCount max.toNat + 7) / 8)) :=
          Nat.pow_le_pow_right (by omega) hle8
    · intro b2 hb2
      rw [hsnd]
      have := bitCount_le_of_lt max.toNat (8 * b2) hb2
      omega
    · intro hE
      rw [hsnd] at hE
      obtain ⟨bytes, hbytes⟩ := Option.ne_none_iff_exists'.mp hE
      rw [key, hbytes]
      constructor
      · exact Int.ofNat_nonneg _
      · have hmod : ((bytes.take ((bitCount max.toNat + 7) / 8)).foldl
            (fun acc b => (acc * 256 + b) % 2 ^ 32) 0) % max.toNat
            < max.toNat := Nat.mod_lt _ (by omega)
        have hmax : (Int.ofNat max.toNat) = max := Int.toNat_of_nonneg (by omega)
        calc (Int.ofNat (((bytes.take ((bitCount max.toNat + 7) / 8)).foldl
              (fun acc b => (acc * 256 + b) % 2 ^ 32) 0) % max.toNat))
            < Int.ofNat max.toNat := Int.ofNat_lt.mpr hmod
          _ = max := hmax

/-- Witness for claim C9 at max = 1 (no entropy consumed) and max = 300
(two bytes drawn, result within range). -/
theorem claim_C9_witness :
    vaguely_random_number 1 (fun _ => some [170]) (fun _ => 0) = (0, 0) ∧
    (vaguely_random_number 300 (fun n => some (List.replicate n 170))
      (fun _ => 0)).2 ≤ 4 ∧
    (300 : Int).toNat <
      2 ^ (8 * (vaguely_random_number 300 (fun n => some (List.replicate n 170))
        (fun _ => 0)).2) ∧
    0 ≤ (vaguely_random_number 300 (fun n => some (List.replicate n 170))
      (fun _ => 0)).1 ∧
    (vaguely_random_number 300 (fun n => some (List.replicate n 170))
      (fun _ => 0)).1 < 300 := by
  have h := (claim_C9 300 (fun n => some (List.replicate n 170))
    (fun _ => 0)).2 (by norm_num) (by norm_num)
  have h0 := (claim_C9 1 (fun _ => some [170]) (fun _ => 0)).1 (by norm_num)
  have hr := h.2.2.2 (by simp)
  exact ⟨h0, h.1, h.2.1, hr.1, hr.2⟩

/-- The tls_write send loop, when the engine's per-call results are bounded
by the bytes outstanding and the loop runs to completion, hands exactly the
requested number of bytes to the engine. -/
theorem tls_write_loop_success_sent : ∀ (oracle : List Int) (len s : Nat),
    boundedResponses len oracle = true →
    tls_write_loop oracle len = some (.success s) → s = len := by
  intro oracle
  induction oracle with
  | nil =>
    intro len s hb h
    by_cases hlen : len = 0
    · subst hlen
      simp [tls_write_loop] at h
      omega
    · simp [tls_write_loop, hlen] at h
  | cons r rest ih =>
    intro len s hb h
    by_cases hlen : len = 0
    · subst hlen
      simp [tls_write_loop] at h
      omega
    · simp only [tls_write_loop, if_neg hlen] at h
      by_cases hr : r ≤ 0
      · rw [if_pos hr] at h
        simp at h
      · rw [if_neg hr] at h
        simp only [boundedResponses, if_neg hr, Bool.and_eq_true,
          decide_eq_true_eq] at hb
        obtain ⟨res, hres, hmap⟩ := Option.map_eq_some'.mp h
        cases res with
        | success s0 =>
          have hs0 := ih (len - r.toNat) s0 hb.2 hres
          simp at hmap
          omega
        | failed s0 => simp at hmap

/-- Claim C8 counterexample: at len = 2^31 (one byte above INT_MAX) with an
engine that accepts the whole buffer in one write, tls_write completes the
loop yet returns INT_MAX, not len, so the stated "returns the total written
(== len) on success" fails. -/
theorem claim_C8_counterexample :
    tls_write (2 ^ 31) [Int.ofNat (2 ^ 31)] = some (Int.ofNat (2 ^ 31 - 1)) ∧
    tls_write (2 ^ 31) [Int.ofNat (2 ^ 31)] ≠ some (Int.ofNat (2 ^ 31)) ∧
    tls_write_loop [Int.ofNat (2 ^ 31)] (2 ^ 31) =
      some (.success (2 ^ 31)) := by
  refine ⟨by decide, by decide, by decide⟩

/-- Claim C8 amended: tls_write loops issuing engine writes until the
cumulative bytes sent equal len, and on success returns min(len, INT_MAX)
(equal to len for every len <= INT_MAX, but not for larger len); a
negative-length engine write returns -1, and a zero-length engine write is
treated as a closed channel and also returns -1, never a short count. -/
theorem claim_C8_amended (len : Nat) (oracle : List Int)
    (hb : boundedResponses len oracle = true) :
    (∀ s, tls_write_loop oracle len = some (.success s) →
      s = len ∧
      tls_write len oracle = some (Int.ofNat (min len INT_MAX)) ∧
      (len ≤ INT_MAX → tls_write len oracle = some (Int.ofNat len))) ∧
    (∀ s, tls_write_loop oracle len = some (.failed s) →
      tls_write len oracle = some (-1)) ∧
    (∀ (r : Int) rest, oracle = r :: rest → 0 < len → r ≤ 0 →
      tls_write len oracle = some (-1)) := by
  refine ⟨?_, ?_, ?_⟩
  · intro s hs
    refine ⟨tls_write_loop_success_sent oracle len s hb hs, ?_, ?_⟩
    · rw [tls_write, hs]
      have hmin : (if len > INT_MAX then INT_MAX else len) = min len INT_MAX := by
        split
        · next h => exact (Nat.min_eq_right (by omega)).symm
        · next h => exact (Nat.min_eq_left (by omega)).symm
      simp [hmin]
    · intro hle
      rw [tls_write, hs]
      have hnot : ¬ (len > INT_MAX) := by omega
      simp [hnot]
  · intro s hs
    rw [tls_write, hs]
    rfl
  · intro r rest hor hlen hr
    subst hor
    rw [tls_write]
    simp only [tls_write_loop, if_neg (by omega : ¬ len = 0), if_pos hr]
    rfl

/-- Claim C4: the handshake loop retries exactly while the engine step
returns would-block, or interrupted with the timeout flag unobserved, and
stops at the first other result; on the server side a non-timeout handshake
failure force-closes both transport endpoints before FAIL is returned, while
a timeout failure leaves both endpoints open. -/
theorem claim_C4 (t1 t2 : List (Int × Bool)) (rc : Int) (seen : Bool)
    (hpre : ∀ p ∈ t1, hs_retry p.1 p.2 = true)
    (hstop : hs_retry rc seen = false) :
    gnutls_handshake_loop (t1 ++ (rc, seen) :: t2) = some (rc, seen) ∧
    (rc ≠ GNUTLS_E_SUCCESS → seen = false →
      tls_server_handshake (t1 ++ (rc, seen) :: t2) =
        some { rc := EXIM_FAIL, fdInOpen := false, fdOutOpen := false,
               reportedTimeout := false }) ∧
    (rc ≠ GNUTLS_E_SUCCESS → seen = true →
      tls_server_handshake (t1 ++ (rc, seen) :: t2) =
        some { rc := EXIM_FAIL, fdInOpen := true, fdOutOpen := true,
               reportedTimeout := true }) ∧
    (rc = GNUTLS_E_SUCCESS →
      tls_server_handshake (t1 ++ (rc, seen) :: t2) =
        some { rc := EXIM_OK, fdInOpen := true, fdOutOpen := true,
               reportedTimeout := false }) := by
  have hloop : gnutls_handshake_loop (t1 ++ (rc, seen) :: t2) =
      some (rc, seen) := by
    induction t1 with
    | nil =>
      simp only [List.nil_append, gnutls_handshake_loop]
      rw [hstop]
      simp
    | cons p rest ih =>
      have hp := hpre p (List.mem_cons_self p rest)
      have hrest : ∀ q ∈ rest, hs_retry q.1 q.2 = true := by
        intro q hq
        exact hpre q (List.mem_cons_of_mem p hq)
      simp only [List.cons_append, gnutls_handshake_loop]
      rw [hp]
      simp only [if_true]
      exact ih hrest
  refine ⟨hloop, ?_, ?_, ?_⟩
  · intro hne hseen
    subst hseen
    rw [tls_server_handshake, hloop]
    simp [hne]
  · intro hne hseen
    subst hseen
    rw [tls_server_handshake, hloop]
    simp [hne]
  · intro heq
    subst heq
    rw [tls_server_handshake, hloop]
    simp

/-- Witness for claim C4: a trace that blocks twice, then fails with a
protocol error without a timeout; the loop stops there and the server closes
both endpoints. -/
theorem claim_C4_witness :
    gnutls_handshake_loop [(GNUTLS_E_AGAIN, false), (GNUTLS_E_INTERRUPTED,
      false), (-10, false)] = some (-10, false) ∧
    tls_server_handshake [(GNUTLS_E_AGAIN, false), (GNUTLS_E_INTERRUPTED,
      false), (-10, false)] =
      some { rc := EXIM_FAIL, fdInOpen := false, fdOutOpen := false,
             reportedTimeout := false } := by
  have h := claim_C4 [(GNUTLS_E_AGAIN, false), (GNUTLS_E_INTERRUPTED, false)]
    [] (-10) false (by decide) (by decide)
  exact ⟨h.1, h.2.1 (by decide) rfl⟩

/-- Claim C1 counterexample: a world in which the DH cache file exists as a
readable regular file whose contents fail the PKCS#3 import, and in which
every regeneration step would succeed, still makes init_server_dh return
DEFER without regenerating, contradicting the claimed fall-through to
regeneration and success. -/
theorem claim_C1_counterexample :
    init_server_dh dhWorldCorruptCache = (EXIM_DEFER, false) ∧
    EXIM_DEFER ≠ EXIM_OK := by
  refine ⟨by decide, by decide⟩

/-- Claim C1 amended: in init_server_dh, when the cache file exists, any
failure to stat it, any non-regular file type, any fdopen/malloc/fread
failure, and any failure to parse its contents as PKCS#3 PEM each cause the
operation to return the setup error DEFER without regenerating; only when
the open fails with ENOENT does the operation fall through to generating
fresh parameters and rewriting the cache, returning success when the
regeneration steps succeed. -/
theorem claim_C1_amended (w : DhWorld)
    (h1 : w.initRC = GNUTLS_E_SUCCESS) (h2 : w.secParamBits ≠ 0)
    (h3 : w.filenameFormatOk = true) :
    (∀ fstatOk isRegular fdopenOk mallocOk freadOk importRC,
      w.openResult = .opened fstatOk isRegular fdopenOk mallocOk freadOk
        importRC →
      (fstatOk = false ∨ isRegular = false ∨ fdopenOk = false ∨
       mallocOk = false ∨ freadOk = false ∨ importRC ≠ GNUTLS_E_SUCCESS) →
      init_server_dh w = (EXIM_DEFER, false)) ∧
    (w.openResult = .enoent →
      w.filenameRoomOk = true → w.mkstempOk = true →
      w.generateRC = GNUTLS_E_SUCCESS →
      w.exportSizingRC = GNUTLS_E_SHORT_MEMORY_BUFFER →
      w.exportMallocOk = true → w.exportRC = GNUTLS_E_SUCCESS →
      w.writeParamsOk = true → w.writeNewlineOk = true →
      w.closeOk = true → w.renameOk = true →
      init_server_dh w = (EXIM_OK, true)) := by
  constructor
  · intro fstatOk isRegular fdopenOk mallocOk freadOk importRC hopen hfail
    rw [init_server_dh, if_neg (by simp [h1]), if_neg (by simp [h2]),
      if_neg (by simp [h3]), hopen]
    rcases hfail with h | h | h | h | h | h <;>
      simp [h]
  · intro hopen r1 r2 r3 r4 r5 r6 r7 r8 r9 r10
    rw [init_server_dh, if_neg (by simp [h1]), if_neg (by simp [h2]),
      if_neg (by simp [h3]), hopen, init_server_dh_regen]
    simp [r1, r2, r3, r4, r5, r6, r7, r8, r9, r10]

/-- Witness for claim C1 amended: the missing-cache world regenerates and
succeeds. -/
theorem claim_C1_witness :
    init_server_dh dhWorldMissingCache = (EXIM_OK, true) :=
  (claim_C1_amended dhWorldMissingCache rfl (by decide) rfl).2
    rfl rfl rfl rfl rfl rfl rfl rfl rfl rfl rfl

/-- Reading m + n bytes through the receive pointer is reading m and then n
from where the first run left off. -/
theorem getcN_add : ∀ (m n : Nat) (s : GetcState),
    getcN (m + n) s = (getcN m s).bind fun p =>
      (getcN n p.2).map fun q => (p.1 ++ q.1, q.2) := by
  intro m
  induction m with
  | zero =>
    intro n s
    simp [getcN]
  | succ m ih =>
    intro n s
    have hsucc : m + 1 + n = (m + n) + 1 := by omega
    rw [hsucc]
    simp only [getcN]
    cases hop : receive_getc s with
    | none => simp
    | some p =>
      simp only [Option.some_bind]
      rw [ih n p.2]
      cases hg : getcN m p.2 with
      | none => simp
      | some q =>
        simp only [Option.some_bind]
        cases hgn : getcN n q.2 with
        | none => simp [hgn]
        | some r => simp [hgn]

/-- Draining k buffered bytes: while the low-water mark is below the
high-water mark, tls_getc returns buffer bytes one at a time and only the
cursor moves. -/
theorem getcN_drain : ∀ (k : Nat) (s : GetcState),
    s.receiveIsTls = true →
    s.xfer_buffer_hwm = s.xfer_buffer.length →
    s.xfer_buffer_lwm + k = s.xfer_buffer.length →
    getcN k s = some ((s.xfer_buffer.drop s.xfer_buffer_lwm).map Int.ofNat,
      { s with xfer_buffer_lwm := s.xfer_buffer.length }) := by
  intro k
  induction k with
  | zero =>
    intro s htls hhwm hlwm
    have hl : s.xfer_buffer_lwm = s.xfer_buffer.length := by omega
    have hs : ({ s with xfer_buffer_lwm := s.xfer_buffer.length } :
        GetcState) = s := by
      rw [← hl]
    rw [hs, hl, List.drop_length]
    simp [getcN]
  | succ k ih =>
    intro s htls hhwm hlwm
    have hlt : s.xfer_buffer_lwm < s.xfer_buffer.length := by omega
    have hget := List.get?_eq_get (l := s.xfer_buffer) hlt
    simp only [getcN, receive_getc, htls, if_pos, tls_getc]
    rw [if_neg (by omega)]
    simp only [xfer_buffer_next, hget]
    have ihres := ih { s with xfer_buffer_lwm := s.xfer_buffer_lwm + 1 }
      htls hhwm (by simp; omega)
    simp only at ihres
    simp only [Option.some_bind]
    rw [ihres]
    simp only [Option.map_some']
    have hdrop : s.xfer_buffer.drop s.xfer_buffer_lwm =
        s.xfer_buffer.get ⟨s.xfer_buffer_lwm, hlt⟩ ::
          s.xfer_buffer.drop (s.xfer_buffer_lwm + 1) :=
      List.drop_eq_getElem_cons hlt
    rw [hdrop]
    simp [htls]
    have hlt2 : s.xfer_buffer_lwm < (s.xfer_buffer.map Int.ofNat).length := by
      simpa using hlt
    rw [List.drop_eq_getElem_cons hlt2]
    simp

/-- Claim C2: for a session whose transport delivers N > 0 buffered bytes
and then a zero-length record read, the byte-wise reader yields exactly
those N bytes; on the zero-length read it reverts the receive function
pointers to the plaintext transport, deinitialises the engine session,
clears the published session facts (active fd, bits, verified flag, channel
binding, cipher, peer DN), and returns the next byte of the plaintext
source, with no byte lost or duplicated at the boundary. -/
theorem claim_C2 (s : GetcState) (bs : List Nat) (p : Nat) (ps : List Nat)
    (hbs : bs ≠ [])
    (htls : s.receiveIsTls = true)
    (hempty : s.xfer_buffer_lwm ≥ s.xfer_buffer_hwm)
    (hq : s.recvQueue = [.bytes bs, .closed])
    (hp : s.plainStream = p :: ps) :
    getcN (bs.length + 1) s =
      some (bs.map Int.ofNat ++ [Int.ofNat p],
        { s with recvQueue := [], plainStream := ps,
                 xfer_buffer := bs,
                 xfer_buffer_hwm := bs.length,
                 xfer_buffer_lwm := bs.length,
                 receiveIsTls := false, sessionLive := false,
                 tls_active := -1, tls_bits := 0,
                 tls_certificate_verified := false,
                 tls_channelbinding_b64 := none, tls_cipher := none,
                 tls_peerdn := none,
                 dkimFeed := s.dkimFeed ++ bs }) := by
  obtain ⟨b, rest, rfl⟩ := List.exists_cons_of_ne_nil hbs
  have hlen : (b :: rest).length + 1 = 1 + (rest.length + 1) := by
    simp
    omega
  rw [hlen, getcN_add 1 (rest.length + 1) s]
  have h1 : getcN 1 s = some ([Int.ofNat b],
      { s with recvQueue := [RecvResult.closed],
               dkimFeed := s.dkimFeed ++ (b :: rest),
               xfer_buffer := b :: rest,
               xfer_buffer_hwm := rest.length + 1,
               xfer_buffer_lwm := 1 }) := by
    simp [getcN, receive_getc, htls, tls_getc, hq, hempty, xfer_buffer_next]
    rw [if_neg (by omega), if_neg (by omega)]
    simp
  rw [h1]
  simp only [Option.some_bind]
  rw [getcN_add rest.length 1]
  have h2 := getcN_drain rest.length
    { s with recvQueue := [RecvResult.closed],
             dkimFeed := s.dkimFeed ++ (b :: rest),
             xfer_buffer := b :: rest,
             xfer_buffer_hwm := rest.length + 1,
             xfer_buffer_lwm := 1 }
    (by simp [htls]) (by simp)
    (by show 1 + rest.length = (b :: rest).length
        simp only [List.length_cons]
        omega)
  simp only at h2
  rw [h2]
  simp only [Option.some_bind]
  have h3 : getcN 1
      { s with recvQueue := [RecvResult.closed],
               dkimFeed := s.dkimFeed ++ (b :: rest),
               xfer_buffer := b :: rest,
               xfer_buffer_hwm := rest.length + 1,
               xfer_buffer_lwm := (b :: rest).length } =
      some ([Int.ofNat p],
        { s with recvQueue := [], plainStream := ps,
                 xfer_buffer := b :: rest,
                 xfer_buffer_hwm := rest.length + 1,
                 xfer_buffer_lwm := (b :: rest).length,
                 receiveIsTls := false, sessionLive := false,
                 tls_active := -1, tls_bits := 0,
                 tls_certificate_verified := false,
                 tls_channelbinding_b64 := none, tls_cipher := none,
                 tls_peerdn := none,
                 dkimFeed := s.dkimFeed ++ (b :: rest) }) := by
    simp [getcN, receive_getc, tls_getc, smtp_getc, hp, htls]
  rw [h3]
  simp

/-- Witness for claim C2: two TLS bytes, then the orderly close hands back
the first plaintext byte and the session facts are cleared. -/
theorem claim_C2_witness :
    getcN 3 getcFallbackSample =
      some ([72, 105, 81],
        { getcFallbackSample with
          recvQueue := [], plainStream := [85],
          xfer_buffer := [72, 105], xfer_buffer_hwm := 2,
          xfer_buffer_lwm := 2,
          receiveIsTls := false, sessionLive := false, tls_active := -1,
          tls_bits := 0, tls_certificate_verified := false,
          tls_channelbinding_b64 := none, tls_cipher := none,
          tls_peerdn := none, dkimFeed := [72, 105] }) := by
  have h := claim_C2 getcFallbackSample [72, 105] 81 [85]
    (by decide) rfl (by decide) rfl rfl
  exact h

/-- Claim C10: tls_read never performs the plaintext fallback: a zero-length
engine read returns the -1 sentinel while the receive pointers, the engine
session, the error flag and the error log stay unchanged; only a
negative-length read goes through the record_io_error logging path. -/
theorem claim_C10 (s : GetcState) (len : Nat) :
    (∀ rest, s.recvQueue = RecvResult.closed :: rest →
      tls_read s len = some (-1, { s with recvQueue := rest }) ∧
      ({ s with recvQueue := rest } : GetcState).receiveIsTls =
        s.receiveIsTls ∧
      ({ s with recvQueue := rest } : GetcState).sessionLive =
        s.sessionLive ∧
      ({ s with recvQueue := rest } : GetcState).xfer_error = s.xfer_error ∧
      ({ s with recvQueue := rest } : GetcState).ioErrorsLogged =
        s.ioErrorsLogged) ∧
    (∀ code rest, s.recvQueue = RecvResult.err code :: rest → code < 0 →
      tls_read s len = some (-1,
        { s with recvQueue := rest,
                 ioErrorsLogged := s.ioErrorsLogged + 1 }) ∧
      ({ s with recvQueue := rest,
                ioErrorsLogged := s.ioErrorsLogged + 1 } :
        GetcState).xfer_error = s.xfer_error) := by
  constructor
  · intro rest hq
    refine ⟨?_, rfl, rfl, rfl, rfl⟩
    simp [tls_read, hq]
  · intro code rest hq hneg
    refine ⟨?_, rfl⟩
    simp only [tls_read, hq]
    rw [if_neg (by omega), if_neg (by omega)]

/-- Witness for claim C10: an orderly close observed by the bulk reader
returns -1 and changes nothing but the consumed transport event. -/
theorem claim_C10_witness :
    tls_read tlsReadCloseSample 5 =
      some (-1, { tlsReadCloseSample with recvQueue := [] }) ∧
    ({ tlsReadCloseSample with recvQueue := [] } :
      GetcState).receiveIsTls = tlsReadCloseSample.receiveIsTls := by
  have h := (claim_C10 tlsReadCloseSample 5).1 [] rfl
  exact ⟨h.1, h.2.1⟩

/-- tls_error never returns OK. -/
theorem tls_error_rc_ne_ok (c : Bool) : tls_error_rc c ≠ EXIM_OK := by
  cases c <;> decide

/-- tls_error returns a non-negative Exim code (DEFER or FAIL). -/
theorem tls_error_rc_nonneg (c : Bool) : 0 ≤ tls_error_rc c := by
  cases c <;> decide

/-- peer_status marks the guard and never touches the engine-oracle fields
nor the policy. -/
theorem peer_status_frame (s : TlsState) :
    (peer_status s).2.have_set_peerdn = true ∧
    (peer_status s).2.peerCertList = s.peerCertList ∧
    (peer_status s).2.verifyPeersRC = s.verifyPeersRC ∧
    (peer_status s).2.verifyPeersBits = s.verifyPeersBits ∧
    (peer_status s).2.uninitVerify = s.uninitVerify ∧
    (peer_status s).2.verify_requirement = s.verify_requirement := by
  by_cases hg : s.have_set_peerdn
  · simp [peer_status, hg]
  · simp only [peer_status, hg, Bool.false_eq_true, if_false,
      peer_status_err]
    repeat' split
    all_goals simp_all

/-- Claim C5: peer_status is idempotent per session generation: it always
leaves the have_set_peerdn guard set; on a state whose guard is set it
returns OK at once without touching the state, so a second invocation after
any first one returns success immediately, performs no further engine
queries, and observes the identical cached distinguished name. -/
theorem claim_C5 (s : TlsState) :
    (peer_status s).2.have_set_peerdn = true ∧
    (s.have_set_peerdn = true → peer_status s = (EXIM_OK, s)) ∧
    peer_status (peer_status s).2 = (EXIM_OK, (peer_status s).2) ∧
    (peer_status (peer_status s).2).2.peerdn = (peer_status s).2.peerdn ∧
    (peer_status (peer_status s).2).2.engineQueries =
      (peer_status s).2.engineQueries := by
  have hguard : (peer_status s).2.have_set_peerdn = true :=
    (peer_status_frame s).1
  have himm : ∀ t : TlsState, t.have_set_peerdn = true →
      peer_status t = (EXIM_OK, t) := by
    intro t ht
    simp [peer_status, ht]
  refine ⟨hguard, himm s, himm _ hguard, ?_, ?_⟩ <;> rw [himm _ hguard]

/-- Witness for claim C5: a concrete first call caches the DN; the second
call is the identity with success. -/
theorem claim_C5_witness :
    peer_status (peer_status sessionRevoked).2 =
      (EXIM_OK, (peer_status sessionRevoked).2) ∧
    (peer_status sessionRevoked).2.have_set_peerdn = true := by
  have h := claim_C5 sessionRevoked
  exact ⟨h.2.2.1, h.1⟩

/-- Claim C3: with no peer certificate presented, REQUIRED policy makes
verify_certificate reject with reason "not supplied" after sending the
fatal alert, while NONE policy accepts with the verified flag false. -/
theorem claim_C3 (s : TlsState)
    (hcert : s.peerCertList = [])
    (hfresh : s.have_set_peerdn = false) :
    (s.verify_requirement = .VERIFY_REQUIRED →
      (verify_certificate s).1 = false ∧
      (verify_certificate s).2.1 = some "not supplied" ∧
      (verify_certificate s).2.2.alertSent = true ∧
      (verify_certificate s).2.2.peer_cert_verified = false) ∧
    (s.verify_requirement = .VERIFY_NONE →
      (verify_certificate s).1 = true ∧
      (verify_certificate s).2.2.peer_cert_verified = false) := by
  constructor
  · intro hreq
    have hps : peer_status s = (tls_error_rc s.isClient,
        { s with have_set_peerdn := true, peerdn := none,
                 engineQueries := s.engineQueries + 1,
                 ciphersuite := some (normalizeCipher s.cipherLabel) }) := by
      simp [peer_status, hfresh, hcert, hreq]
    have hne : tls_error_rc s.isClient ≠ EXIM_OK := tls_error_rc_ne_ok _
    have hland : Nat.land GNUTLS_CERT_INVALID
        (GNUTLS_CERT_INVALID + GNUTLS_CERT_REVOKED) ≠ 0 := by decide
    simp [verify_certificate, hps, hne, hland, hreq]
  · intro hreq
    have hps : peer_status s = (EXIM_OK,
        { s with have_set_peerdn := true, peerdn := none,
                 engineQueries := s.engineQueries + 1,
                 ciphersuite := some (normalizeCipher s.cipherLabel) }) := by
      simp [peer_status, hfresh, hcert, hreq]
    have hneg : GNUTLS_E_NO_CERTIFICATE_FOUND < 0 := by decide
    simp [verify_certificate, hps, gnutls_certificate_verify_peers2, hcert,
      hneg, hreq]

/-- Witness for claim C3: the no-certificate session is rejected with
"not supplied" under REQUIRED and accepted unverified under NONE. -/
theorem claim_C3_witness :
    (verify_certificate sessionNoCertRequired).1 = false ∧
    (verify_certificate sessionNoCertRequired).2.1 = some "not supplied" ∧
    (verify_certificate sessionNoCertRequired).2.2.alertSent = true ∧
    (verify_certificate sessionNoCertNone).1 = true ∧
    (verify_certificate sessionNoCertNone).2.2.peer_cert_verified
      = false := by
  have h1 := (claim_C3 sessionNoCertRequired rfl rfl).1 rfl
  have h2 := (claim_C3 sessionNoCertNone rfl rfl).2 rfl
  exact ⟨h1.1, h1.2.1, h1.2.2.1, h2.1, h2.2⟩

/-- Claim C6: whenever the engine's verification status has the invalid bit,
the revoked bit, or both set, verify_certificate records the peer as
unverified, labels the failure "revoked" whenever the revoked bit is set
(even together with the invalid bit) and "invalid" when only the invalid
bit is set, and under REQUIRED policy rejects the session. -/
theorem claim_C6 (s : TlsState)
    (hps : (peer_status s).1 = EXIM_OK)
    (hcerts : s.peerCertList ≠ [])
    (hrc : s.verifyPeersRC = GNUTLS_E_SUCCESS)
    (hbits : Nat.land s.verifyPeersBits
      (GNUTLS_CERT_INVALID + GNUTLS_CERT_REVOKED) ≠ 0) :
    (verify_certificate s).2.2.peer_cert_verified = false ∧
    (verify_certificate s).2.1 =
      some (if Nat.land s.verifyPeersBits GNUTLS_CERT_REVOKED ≠ 0 then
        "revoked" else "invalid") ∧
    (Nat.land s.verifyPeersBits GNUTLS_CERT_REVOKED = 0 →
      (verify_certificate s).2.1 = some "invalid") ∧
    (s.verify_requirement = .VERIFY_REQUIRED →
      (verify_certificate s).1 = false) := by
  have hf := peer_status_frame s
  have hq : gnutls_certificate_verify_peers2 (peer_status s).2 =
      (GNUTLS_E_SUCCESS, s.verifyPeersBits) := by
    simp [gnutls_certificate_verify_peers2, hf.2.1, hf.2.2.1, hf.2.2.2.1,
      hcerts, hrc]
  have hpair : peer_status s = (EXIM_OK, (peer_status s).2) := by
    rw [← hps]
  have hnotneg : ¬ (GNUTLS_E_SUCCESS < 0) := by decide
  constructor
  · rw [verify_certificate, hpair]
    simp [hq, hbits, hnotneg]
    split <;> rfl
  constructor
  · rw [verify_certificate, hpair]
    simp [hq, hbits, hnotneg]
    split <;> rfl
  constructor
  · intro hrev
    rw [verify_certificate, hpair]
    simp [hq, hbits, hnotneg, hrev]
    split <;> rfl
  · intro hreq
    rw [verify_certificate, hpair]
    have hreq2 : (peer_status s).2.verify_requirement = .VERIFY_REQUIRED := by
      rw [hf.2.2.2.2.2, hreq]
    simp [hq, hbits, hnotneg, hreq2]

/-- Witness for claim C6: an engine result with both the invalid and revoked
bits set yields an unverified peer with the "revoked" label. -/
theorem claim_C6_witness :
    (verify_certificate sessionRevoked).2.2.peer_cert_verified = false ∧
    (verify_certificate sessionRevoked).2.1 = some "revoked" := by
  have h := claim_C6 sessionRevoked rfl (by decide) rfl (by decide)
  exact ⟨h.1, h.2.1⟩

/-- The SNI prelude can only touch the trigger_sni_changes flag. -/
theorem tls_expand_sni_prelude_fields (s : ExpandState) :
    (tls_expand_sni_prelude s).isClient = s.isClient ∧
    (tls_expand_sni_prelude s).tls_certificate = s.tls_certificate ∧
    (tls_expand_sni_prelude s).tls_privatekey = s.tls_privatekey ∧
    (tls_expand_sni_prelude s).tls_verify_certificates =
      s.tls_verify_certificates ∧
    (tls_expand_sni_prelude s).tls_crl = s.tls_crl ∧
    (tls_expand_sni_prelude s).verify_requirement = s.verify_requirement := by
  rw [tls_expand_sni_prelude]
  repeat' split
  all_goals simp

/-- The resolver body returns DEFER whenever the expanded trust-store path
stats as a directory, provided the earlier engine steps succeed and the
trust store is configured non-empty with a non-empty expansion. -/
theorem tls_expand_core_dir_defer (env : ExpandEnv) (t : ExpandState)
    (halloc : env.allocRC = GNUTLS_E_SUCCESS)
    (hset : env.setKeyFileRC = GNUTLS_E_SUCCESS)
    (vc : String) (hvc : t.tls_verify_certificates = some vc)
    (hvcne : vc ≠ "")
    (evc : String) (hevc : env.expand vc = some evc) (hevcne : evc ≠ "")
    (sz : Nat) (hstat : env.statGives evc = some (true, sz)) :
    (tls_expand_core env t).1 = EXIM_DEFER := by
  have htrust : ∀ u : ExpandState,
      u.tls_verify_certificates = some vc →
      (tls_expand_trust_section env u).1 = EXIM_DEFER := by
    intro u hu
    rw [tls_expand_trust_section]
    rw [if_neg (by simp [hu, optEmpty, hvcne])]
    have hexp : expand_check env u.tls_verify_certificates =
        some (some evc) := by
      rw [hu]
      simp [expand_check, hevc]
    simp only [hexp]
    split
    · rfl
    · next u2 heq =>
      have hu2 : u2.exp_tls_verify_certificates = some evc := by
        split at heq
        · simp only [Option.some.injEq] at heq
          rw [← heq]
        · split at heq
          · exact absurd heq (by simp)
          · simp only [Option.some.injEq] at heq
            rw [← heq]
      rw [if_neg (by simp [optEmpty, hu2, hevcne])]
      rw [hu2]
      simp [hstat]
  rw [tls_expand_core, if_neg (by simp [halloc])]
  split
  · rfl
  · next expCert hcert =>
    dsimp only
    split
    · rfl
    · split
      · rfl
      · next s2 hkey =>
        rw [if_neg (by simp [hset])]
        apply htrust
        have hs2 : s2.tls_verify_certificates = t.tls_verify_certificates := by
          split at hkey
          · simp only [Option.some.injEq] at hkey
            rw [← hkey]
          · split at hkey
            · exact absurd hkey (by simp)
            · simp only [Option.some.injEq] at hkey
              rw [← hkey]
        split <;> simp [hs2, hvc]

/-- Claim C7: when the expanded trust-store path names a directory,
credential resolution returns the deferred setup error, and this outcome is
the same for every verification policy level — the resolver never consults
the verify requirement. -/
theorem claim_C7 (env : ExpandEnv) (s : ExpandState)
    (halloc : env.allocRC = GNUTLS_E_SUCCESS)
    (hset : env.setKeyFileRC = GNUTLS_E_SUCCESS)
    (vc : String) (hvc : s.tls_verify_certificates = some vc)
    (hvcne : vc ≠ "")
    (evc : String) (hevc : env.expand vc = some evc) (hevcne : evc ≠ "")
    (sz : Nat) (hstat : env.statGives evc = some (true, sz)) :
    (tls_expand_session_files env s).1 = EXIM_DEFER ∧
    ∀ q : PeerVerifyRequirement,
      (tls_expand_session_files env
        { s with verify_requirement := q }).1 = EXIM_DEFER := by
  have happ : ∀ u : ExpandState,
      u.tls_verify_certificates = s.tls_verify_certificates →
      (tls_expand_session_files env u).1 = EXIM_DEFER := by
    intro u hu
    rw [tls_expand_session_files]
    exact tls_expand_core_dir_defer env _ halloc hset vc
      (by rw [(tls_expand_sni_prelude_fields u).2.2.2.1, hu, hvc]) hvcne
      evc hevc hevcne sz hstat
  exact ⟨happ s rfl, fun q => happ _ rfl⟩

/-- Witness for claim C7: an identity-expanding environment whose trust
store stats as a directory defers under NONE and under REQUIRED policy
alike. -/
theorem claim_C7_witness :
    (tls_expand_session_files expandEnvDirSample expandStateDirSample).1 =
      EXIM_DEFER ∧
    (tls_expand_session_files expandEnvDirSample
      { expandStateDirSample with
        verify_requirement := .VERIFY_REQUIRED }).1 = EXIM_DEFER := by
  have h := claim_C7 expandEnvDirSample expandStateDirSample rfl rfl
    "/etc/cadir" rfl (by decide) "/etc/cadir" rfl (by decide)
    4096 (by decide)
  exact ⟨h.1, h.2 .VERIFY_REQUIRED⟩

/-- Witness for claim C8 amended: three one-byte writes complete a
three-byte buffer and report 3; a zero-length write aborts with -1. -/
theorem claim_C8_witness :
    tls_write 3 [1, 1, 1] = some (Int.ofNat 3) ∧
    tls_write 3 [1, 0] = some (-1) := by
  have h := claim_C8_amended 3 [1, 1, 1] (by decide)
  have h2 := claim_C8_amended 3 [1, 0] (by decide)
  exact ⟨(h.1 3 (by decide)).2.2 (by decide), h2.2.1 1 (by decide)⟩
